import Mathlib

/-!
Shallow embedding of the login-register microservice repository:
the user-service HTTP handlers (`POST /users`, `GET /users/check-email`,
`GET /users/by-email/:email`) with their Redis cache-aside logic, the
auth-service handlers (`POST /register`, `POST /login`), and the paginated
`getUsers` controller with its per-page Redis cache.

Modelling conventions:
* The relational store (Prisma) is a list of user records plus an
  autoincrement counter; `findUnique` is a first-match scan, `create`
  appends, and the pagination scan (`findMany` with `orderBy id asc`,
  `cursor {id}` + `skip 1`, `take n`) is "sort by id, keep ids strictly
  greater than the cursor, take n" — Prisma's behaviour when the cursor
  record exists, per spec section 4.2.
* The Redis user cache is an association list keyed by `user:email:<email>`;
  redis stores flat string hashes, so an entry is the record whose `id`
  round-trips through `toString`/`parseInt`. TTL bookkeeping is abstracted:
  all claims concern reads immediately after writes, within the TTL window.
* Cache failures are injected through `CacheBehavior`: `readOk = false`
  makes `hGetAll` return null (the wrapper catches and returns null), and
  `writeOk = false` makes `hSet`/`expire` throw (the wrapper catches, logs
  and RE-THROWS), which the handlers' catch-all turns into a 500.
* bcrypt and jwt are opaque capabilities, passed in as a `Crypto` record.
* Timestamps are abstracted as strings (`createdAt` already holds its ISO
  rendering, so `toISOString` is the identity).
* JSON response bodies are an explicit `Json` inductive so that claims
  about which fields a body carries are statable.
-/

namespace LoginRegister

/-- A JSON value, for modelling HTTP response bodies. -/
inductive Json where
  | null : Json
  | str : String → Json
  | num : Int → Json
  | bool : Bool → Json
  | arr : List Json → Json
  | obj : List (String × Json) → Json
deriving Repr

/-- Field lookup in a JSON object (first match), `undefined` as `none`. -/
def jsonField (j : Json) (k : String) : Option Json :=
  match j with
  | Json.obj l => (l.find? (fun p => p.1 == k)).map (·.2)
  | _ => none

/-- The keys of a JSON object, in order. -/
def jsonKeys (j : Json) : List String :=
  match j with
  | Json.obj l => l.map (·.1)
  | _ => []

mutual

/-- All string leaves of a JSON value, in order of occurrence. -/
def jsonStrings : Json → List String
  | Json.null => []
  | Json.str s => [s]
  | Json.num _ => []
  | Json.bool _ => []
  | Json.arr l => jsonStringsArr l
  | Json.obj l => jsonStringsObj l

/-- String leaves of the elements of a JSON array. -/
def jsonStringsArr : List Json → List String
  | [] => []
  | x :: xs => jsonStrings x ++ jsonStringsArr xs

/-- String leaves of the values of a JSON object. -/
def jsonStringsObj : List (String × Json) → List String
  | [] => []
  | (_, v) :: xs => jsonStrings v ++ jsonStringsObj xs

end

/-- A user record as stored by Prisma (`id` autoincrement, `email` unique,
`password` holds the bcrypt hash, `createdAt` abstracted to its ISO string). -/
structure User where
  id : Nat
  email : String
  password : String
  createdAt : String
deriving Repr, DecidableEq

/-- The relational store: the rows of the `User` table plus the
autoincrement counter for the next `id`. -/
structure Db where
  users : List User
  nextId : Nat
deriving Repr, DecidableEq

/-- `prisma.user.findUnique({ where: { email } })`. -/
def Db.findByEmail (db : Db) (email : String) : Option User :=
  db.users.find? (fun u => u.email == email)

/-- `prisma.user.create({ data: { email, password } })`: the store assigns
the next id and a creation timestamp (abstracted as derived text). -/
def Db.create (db : Db) (email password : String) : User × Db :=
  let u : User := ⟨db.nextId, email, password, "t" ++ toString db.nextId⟩
  (u, ⟨db.users ++ [u], db.nextId + 1⟩)

/-- id-ascending order on user records (the `orderBy: { id: 'asc' }`). -/
def idLe (a b : User) : Prop := a.id ≤ b.id

instance : DecidableRel idLe := fun a b => inferInstanceAs (Decidable (a.id ≤ b.id))

/-- The record store's cursor scan:
`findMany({ take: n, skip: 1, cursor: { id: c }, orderBy: { id: 'asc' } })`
returns up to `n` records ordered by id ascending, starting strictly after
the cursor (all records from the smallest id when the cursor is absent). -/
def Db.findPage (db : Db) (cursor : Option Nat) (n : Nat) : List User :=
  match cursor with
  | none => (db.users.insertionSort idLe).take n
  | some c => ((db.users.insertionSort idLe).filter (fun u => decide (c < u.id))).take n

/-- Association-list lookup (first match), used for both Redis caches. -/
def alistFind {α : Type} (l : List (String × α)) (k : String) : Option α :=
  (l.find? (fun p => p.1 == k)).map (·.2)

/-- Association-list overwrite: the new binding shadows any older one. -/
def alistPut {α : Type} (l : List (String × α)) (k : String) (v : α) : List (String × α) :=
  (k, v) :: l

/-- Association-list erasure of every binding for a key. -/
def alistDrop {α : Type} (l : List (String × α)) (k : String) : List (String × α) :=
  l.filter (fun p => p.1 != k)

/-- The Redis user cache: hash entries keyed by `user:email:<email>`. -/
abbrev Cache := List (String × User)

/-- Injected outcome of the request's Redis operations: `readOk = false`
models `hGetAll` failing (wrapper returns null, treated as a miss);
`writeOk = false` models `hSet`/`expire` failing (wrapper re-throws,
so the handler's catch-all answers 500). -/
structure CacheBehavior where
  readOk : Bool
  writeOk : Bool
deriving Repr, DecidableEq

/-- The cache key `user:email:<email>`. -/
def userKey (email : String) : String := "user:email:" ++ email

/-- The handlers' cache probe: `hGetAll` (null on read failure, `{}` on a
missing key) followed by the `cachedUser && cachedUser.email` truthiness
check, so an entry with an empty email field counts as a miss. -/
def cacheLookup (b : CacheBehavior) (c : Cache) (k : String) : Option User :=
  if b.readOk then
    match alistFind c k with
    | some u => if u.email = "" then none else some u
    | none => none
  else none

/-- Status code and JSON body of an HTTP response, together with the store
and cache as the handler leaves them; `dbTouched` records whether the
handler queried or wrote the record store at all. -/
structure HResult where
  status : Nat
  body : Json
  db : Db
  cache : Cache
  dbTouched : Bool
deriving Repr

/-- The response data a caller can observe (status, body, resulting store). -/
def respOf (r : HResult) : Nat × Json × Db := (r.status, r.body, r.db)

/-- Executable stand-in for zod's `z.string().email()` check (the library
is an external capability; only pass/fail reaches any claim). -/
def emailOk (s : String) : Bool :=
  match s.toList.span (fun c => c != '@') with
  | (localPart, _ :: domain) =>
      !localPart.isEmpty && !domain.contains '@' &&
        domain.contains '.' && domain.head? != some '.'
  | (_, []) => false

/-- The issue messages zod collects for `{ email: z.string().email(),
password: z.string().min(8) }` with its default messages. -/
def zodIssues (email password : String) : List String :=
  (if emailOk email then [] else ["Invalid email"]) ++
  (if password.length < 8 then ["String must contain at least 8 character(s)"] else [])

/-- The issue messages for the check-email schema `{ email: z.string().email() }`. -/
def zodEmailIssues (email : String) : List String :=
  if emailOk email then [] else ["Invalid email"]

/-- The 400 body built from a `ZodError`:
`{ error: error.errors.map(e => e.message).join(', ') }`. -/
def errBody (msgs : List String) : Json :=
  Json.obj [("error", Json.str (String.intercalate ", " msgs))]

/-- A user record rendered as the raw Redis hash (all values strings),
as `GET /users/check-email` returns it on a cache hit. -/
def hashJson (u : User) : Json :=
  Json.obj [("id", Json.str (toString u.id)), ("email", Json.str u.email),
            ("password", Json.str u.password), ("createdAt", Json.str u.createdAt)]

/-- A user record rendered as the by-email JSON body (id numeric). -/
def fullJson (u : User) : Json :=
  Json.obj [("id", Json.num u.id), ("email", Json.str u.email),
            ("password", Json.str u.password), ("createdAt", Json.str u.createdAt)]

/-- `POST /users` (user-service): validate; probe the cache and answer 409
on a hit; otherwise check the store, caching a found record and answering
409; otherwise create the record, cache it and answer 201. A failed
`hSet`/`expire` throws into the catch-all, answering 500. -/
def createUser (db : Db) (c : Cache) (b : CacheBehavior) (email password : String) : HResult :=
  if zodIssues email password = [] then
    match cacheLookup b c (userKey email) with
    | some _ =>
        ⟨409, Json.obj [("error", Json.str "Email already registered")], db, c, false⟩
    | none =>
        match db.findByEmail email with
        | some existing =>
            if b.writeOk then
              ⟨409, Json.obj [("error", Json.str "Email already registered")], db,
                alistPut c (userKey email) existing, true⟩
            else
              ⟨500, Json.obj [("error", Json.str "Internal server error")], db, c, true⟩
        | none =>
            let created := db.create email password
            if b.writeOk then
              ⟨201, Json.obj [("id", Json.num created.1.id),
                              ("email", Json.str created.1.email),
                              ("createdAt", Json.str created.1.createdAt)],
                created.2, alistPut c (userKey email) created.1, true⟩
            else
              ⟨500, Json.obj [("error", Json.str "Internal server error")], created.2, c, true⟩
  else
    ⟨400, errBody (zodIssues email password), db, c, false⟩

/-- `GET /users/check-email` (user-service): validate; on a cache hit return
the raw cached hash as `user`; on a miss look the record up with
`select { id, email }`, cache `{id, email, password: '', createdAt: ''}`
when found (a failed write answers 500), and report existence. -/
def checkEmail (db : Db) (c : Cache) (b : CacheBehavior) (email : String) : HResult :=
  if zodEmailIssues email = [] then
    match cacheLookup b c (userKey email) with
    | some u =>
        ⟨200, Json.obj [("exists", Json.bool true), ("user", hashJson u)], db, c, false⟩
    | none =>
        match db.findByEmail email with
        | some u =>
            if b.writeOk then
              ⟨200, Json.obj [("exists", Json.bool true),
                              ("user", Json.obj [("id", Json.num u.id),
                                                 ("email", Json.str u.email)])],
                db, alistPut c (userKey email) ⟨u.id, u.email, "", ""⟩, true⟩
            else
              ⟨500, Json.obj [("error", Json.str "Internal server error")], db, c, true⟩
        | none =>
            ⟨200, Json.obj [("exists", Json.bool false), ("user", Json.null)], db, c, true⟩
  else
    ⟨400, errBody (zodEmailIssues email), db, c, false⟩

/-- `GET /users/by-email/:email` (user-service): on a cache hit return the
cached record (id parsed back to a number); on a miss fall back to the
store, answering 404 when absent, else cache the record (a failed write
answers 500) and return it in full — password hash included. -/
def getByEmail (db : Db) (c : Cache) (b : CacheBehavior) (email : String) : HResult :=
  match cacheLookup b c (userKey email) with
  | some u => ⟨200, fullJson u, db, c, false⟩
  | none =>
      match db.findByEmail email with
      | none => ⟨404, Json.obj [("error", Json.str "User not found")], db, c, true⟩
      | some u =>
          if b.writeOk then
            ⟨200, fullJson u, db, alistPut c (userKey email) u, true⟩
          else
            ⟨500, Json.obj [("error", Json.str "Internal server error")], db, c, true⟩

/-- The cryptographic capabilities (bcrypt and jwt) as opaque-to-the-model
functions: `hashFn` is `bcrypt.hash`, `verify pw h` is
`bcrypt.compare(pw, h)`, `sign uid email` is
`jwt.sign({userId: uid, email}, JWT_SECRET, {expiresIn: '24h'})`. -/
structure Crypto where
  hashFn : String → String
  verify : String → String → Bool
  sign : Int → String → String

/-- The numeric value of a JSON object's field (`undefined`-ish fallback 0,
never reached on the 2xx bodies the callers read it from). -/
def jsonNumField (j : Json) (k : String) : Int :=
  match jsonField j k with
  | some (Json.num n) => n
  | _ => 0

/-- The string value of a JSON object's field (fallback `""`). -/
def jsonStrField (j : Json) (k : String) : String :=
  match jsonField j k with
  | some (Json.str s) => s
  | _ => ""

/-- `POST /register` (auth-service): validate; hash the password; call the
user-service `POST /users`; on 201 sign a token over the returned id and
the request email and answer 201 with `{message, token, user: {id, email}}`;
a 409 from the user-service maps to 409, anything else non-2xx to 500. -/
def register (k : Crypto) (db : Db) (c : Cache) (b : CacheBehavior)
    (email password : String) : HResult :=
  if zodIssues email password = [] then
    let r := createUser db c b email (k.hashFn password)
    if r.status = 201 then
      let uid := jsonNumField r.body "id"
      let uemail := jsonStrField r.body "email"
      let token := k.sign uid email
      ⟨201, Json.obj [("message", Json.str "User registered successfully"),
                      ("token", Json.str token),
                      ("user", Json.obj [("id", Json.num uid),
                                         ("email", Json.str uemail)])],
        r.db, r.cache, r.dbTouched⟩
    else if r.status = 409 then
      ⟨409, Json.obj [("error", Json.str "Email already registered")],
        r.db, r.cache, r.dbTouched⟩
    else
      ⟨500, Json.obj [("error", Json.str "Internal server error")],
        r.db, r.cache, r.dbTouched⟩
  else
    ⟨400, errBody (zodIssues email password), db, c, false⟩

/-- `POST /login` (auth-service): validate; fetch the user from the
user-service by-email endpoint; a 404 maps to the same
`401 {error: 'Invalid email or password'}` that a failed
`bcrypt.compare` produces; on a match answer 200 with a fresh token;
any other upstream failure maps to 500. -/
def login (k : Crypto) (db : Db) (c : Cache) (b : CacheBehavior)
    (email password : String) : HResult :=
  if zodIssues email password = [] then
    let r := getByEmail db c b email
    if r.status = 200 then
      if k.verify password (jsonStrField r.body "password") then
        let uid := jsonNumField r.body "id"
        let uemail := jsonStrField r.body "email"
        ⟨200, Json.obj [("message", Json.str "Login successful"),
                        ("token", Json.str (k.sign uid uemail)),
                        ("user", Json.obj [("id", Json.num uid),
                                           ("email", Json.str uemail)])],
          r.db, r.cache, r.dbTouched⟩
      else
        ⟨401, Json.obj [("error", Json.str "Invalid email or password")],
          r.db, r.cache, r.dbTouched⟩
    else if r.status = 404 then
      ⟨401, Json.obj [("error", Json.str "Invalid email or password")],
        r.db, r.cache, r.dbTouched⟩
    else
      ⟨500, Json.obj [("error", Json.str "Internal server error")],
        r.db, r.cache, r.dbTouched⟩
  else
    ⟨400, errBody (zodIssues email password), db, c, false⟩

/-! ### Paginated listing (`getUsers` controller) -/

/-- A row of the paginated listing, per the controller's
`select { id: true, email: true, createdAt: true }`. -/
structure PageUser where
  id : Nat
  email : String
  createdAt : String
deriving Repr, DecidableEq

/-- The listing's projection of a user record. -/
def User.project (u : User) : PageUser := ⟨u.id, u.email, u.createdAt⟩

/-- The body of a `GET /api/users` response: the page and the next cursor. -/
structure PageResp where
  users : List PageUser
  nextCursor : Option Nat
deriving Repr, DecidableEq

/-- The controller's own Redis cache of whole page responses, keyed by
`users:<take>:<cursor || 0>` (it stores the serialized response;
serialization round-trips, so entries are kept structured). -/
abbrev PageCache := List (String × PageResp)

/-- `parseInt(req.query.take, 10) || 10`: a missing/zero take falls back
to 10 (the query value is modelled already parsed). -/
def effTake (takeParam : Nat) : Nat := if takeParam = 0 then 10 else takeParam

/-- `req.query.cursor ? parseInt(...) : null`, then `cursor ? {id: cursor}
: undefined`: a cursor of 0 is falsy and behaves like an absent cursor. -/
def effCursor (cursorParam : Option Nat) : Option Nat :=
  match cursorParam with
  | some c => if c = 0 then none else some c
  | none => none

/-- The page-cache key `` `users:${take}:${cursor || 0}` ``. -/
def pageKey (take : Nat) (cursor : Option Nat) : String :=
  "users:" ++ toString take ++ ":" ++ toString (cursor.getD 0)

/-- `getUsers` (controller): on a page-cache hit return the cached response
unchanged; on a miss scan `take+1` records after the cursor, pop the extra
record when present to produce `nextCursor` (the popped record's id),
cache the response for 60s and return it. The second component is the page
cache as the handler leaves it; the third records whether the store was
scanned. -/
def getUsers (db : Db) (pc : PageCache) (takeParam : Nat) (cursorParam : Option Nat) :
    PageResp × PageCache × Bool :=
  let take := effTake takeParam
  let cursor := effCursor cursorParam
  let key := pageKey take cursor
  match alistFind pc key with
  | some resp => (resp, pc, false)
  | none =>
      let scanned := (db.findPage cursor (take + 1)).map User.project
      let resp : PageResp :=
        if take < scanned.length then
          ⟨scanned.dropLast, scanned.getLast?.map (·.id)⟩
        else
          ⟨scanned, none⟩
      (resp, alistPut pc key resp, true)

/-- Drive `getUsers` as the pagination loop of spec section 8: start with no
cursor, feed each response's `nextCursor` into the next call (threading the
page cache), and collect the returned ids; `fuel` bounds the number of
calls. -/
def paginate (db : Db) : Nat → PageCache → Nat → Option Nat → List Nat
  | 0, _, _, _ => []
  | fuel + 1, pc, takeParam, cursorParam =>
      let r := getUsers db pc takeParam cursorParam
      let ids := r.1.users.map (·.id)
      match r.1.nextCursor with
      | none => ids
      | some c => ids ++ paginate db fuel r.2.1 takeParam (some c)

/-- A store holding exactly the records with ids `1..n`
(emails `u<i>@x.com`, hashes `h<i>`). -/
def seqDb (n : Nat) : Db :=
  ⟨(List.range n).map (fun i =>
      ⟨i + 1, "u" ++ toString (i + 1) ++ "@x.com", "h" ++ toString (i + 1),
        "t" ++ toString (i + 1)⟩),
    n + 1⟩

/-- A concrete `Crypto` instance for witnesses: hashing appends a marker,
verification re-hashes and compares, signing renders the claims. -/
def k0 : Crypto :=
  ⟨fun p => p ++ "$2b$h",
   fun p h => h == p ++ "$2b$h",
   fun uid em => "tok." ++ toString uid ++ "." ++ em⟩

/-! ### Helper lemmas -/

/-- A record appended to a store in which its email was absent is found by
a subsequent lookup of that email. -/
theorem findByEmail_create (db : Db) (email password : String)
    (h : db.findByEmail email = none) :
    (db.create email password).2.findByEmail email = some (db.create email password).1 := by
  simp only [Db.findByEmail, Db.create] at h ⊢
  rw [List.find?_append, h]
  simp

/-- Dropping every binding for a key makes a lookup of that key miss. -/
theorem alistFind_alistDrop {α : Type} (l : List (String × α)) (k : String) :
    alistFind (alistDrop l k) k = none := by
  simp only [alistFind, alistDrop, Option.map_eq_none', List.find?_eq_none, List.mem_filter]
  intro p hp
  simp only [bne_iff_ne, ne_eq] at hp
  simp [hp.2]

/-- Looking up the key just written returns the written value. -/
theorem alistFind_alistPut {α : Type} (l : List (String × α)) (k : String) (v : α) :
    alistFind (alistPut l k v) k = some v := by
  simp [alistFind, alistPut]

/-- A valid request body has a well-formed email. -/
theorem zodIssues_email (email password : String)
    (h : zodIssues email password = []) : emailOk email = true := by
  by_cases he : emailOk email = true
  · exact he
  · simp [zodIssues, he] at h

/-- A well-formed email is nonempty. -/
theorem emailOk_ne_empty (email : String) (h : emailOk email = true) : email ≠ "" := by
  intro he
  rw [he] at h
  exact absurd h (by decide)

/-! ### Claims -/

/-- Claim C1 (code bug): the pagination loop drops the record trimmed at
each page boundary, because `nextCursor` is the trimmed record's id while
the next call scans strictly after that id. With records 1..3 and take = 1
the loop returns ids [1, 3] — record 2 is never returned; with records
1..5 and take = 2 it returns [1, 2, 4, 5], and the first call answers
`nextCursor = 3` where the spec's section-8 scenario requires
`{users:[1,2], nextCursor:2}` and every record exactly once. -/
theorem getUsers_loop_drops_boundary_records :
    paginate (seqDb 3) 10 [] 1 none = [1, 3] ∧
    paginate (seqDb 5) 10 [] 2 none = [1, 2, 4, 5] ∧
    ((getUsers (seqDb 5) [] 2 none).1.users.map (·.id)) = [1, 2] ∧
    (getUsers (seqDb 5) [] 2 none).1.nextCursor = some 3 := by
  refine ⟨by decide, by decide, by decide, by decide⟩

/-- Claim C2: on a page-cache miss, a single `getUsers` call with an
effective (nonzero) take and a nonzero-or-absent cursor returns the scan
of `take+1` records ordered by id ascending strictly after the cursor,
trimmed to the first `take` records, and its `nextCursor` is the id of the
trimmed `(take+1)`-th record when `take+1` records were returned and
`null` otherwise. -/
theorem getUsers_scan_trim (db : Db) (pc : PageCache) (take : Nat) (cursor : Option Nat)
    (htake : take ≠ 0) (hcur : cursor ≠ some 0)
    (hmiss : alistFind pc (pageKey take cursor) = none) :
    (getUsers db pc take cursor).1.users =
      ((db.findPage cursor (take + 1)).map User.project).take take ∧
    (getUsers db pc take cursor).1.nextCursor =
      (if ((db.findPage cursor (take + 1)).map User.project).length = take + 1
       then (((db.findPage cursor (take + 1)).map User.project)[take]?).map (·.id)
       else none) := by
  have heff : effTake take = take := by simp [effTake, htake]
  have hcur' : effCursor cursor = cursor := by
    cases cursor with
    | none => rfl
    | some c =>
        have hc : c ≠ 0 := fun h => hcur (by rw [h])
        simp [effCursor, hc]
  have hlen : ((db.findPage cursor (take + 1)).map User.project).length ≤ take + 1 := by
    rw [List.length_map]
    cases cursor with
    | none =>
        simp only [Db.findPage, List.length_take]
        exact min_le_left _ _
    | some c =>
        simp only [Db.findPage, List.length_take]
        exact min_le_left _ _
  simp only [getUsers, heff, hcur', hmiss]
  set scanned := (db.findPage cursor (take + 1)).map User.project with hs
  by_cases hlt : take < scanned.length
  · have hEq : scanned.length = take + 1 := by omega
    simp only [hlt, if_pos, if_true]
    constructor
    · simp [List.dropLast_eq_take, hEq]
    · rw [List.getLast?_eq_getElem?, hEq]
      simp
  · have hle : scanned.length ≤ take := by omega
    have hne : ¬ scanned.length = take + 1 := by omega
    simp only [hlt, if_neg, if_false, hne]
    exact ⟨(List.take_of_length_le hle).symm, trivial⟩

/-- Witness for `getUsers_scan_trim` at the spec's section-8 store
(records 1..5, take = 2, no cursor, empty page cache). -/
theorem getUsers_scan_trim_witness :
    (getUsers (seqDb 5) [] 2 none).1.users =
      (((seqDb 5).findPage none 3).map User.project).take 2 ∧
    (getUsers (seqDb 5) [] 2 none).1.nextCursor =
      (if (((seqDb 5).findPage none 3).map User.project).length = 3
       then ((((seqDb 5).findPage none 3).map User.project)[2]?).map (·.id)
       else none) :=
  getUsers_scan_trim (seqDb 5) [] 2 none (by decide) (by decide) rfl

/-- Claim C3: with its cache operations succeeding, `create(email, hash)`
answers 409 without querying or writing the store when the cache holds an
entry for the email; otherwise, when the store already holds the email, it
caches that existing record and answers 409; otherwise it inserts the
record, populates the cache with it, and answers 201 with the created
record. -/
theorem createUser_duplicate_flow (db : Db) (c : Cache) (email password : String)
    (hv : zodIssues email password = []) :
    (∀ u, cacheLookup ⟨true, true⟩ c (userKey email) = some u →
        createUser db c ⟨true, true⟩ email password =
          ⟨409, Json.obj [("error", Json.str "Email already registered")], db, c, false⟩) ∧
    (cacheLookup ⟨true, true⟩ c (userKey email) = none →
      ∀ existing, db.findByEmail email = some existing →
        createUser db c ⟨true, true⟩ email password =
          ⟨409, Json.obj [("error", Json.str "Email already registered")], db,
            alistPut c (userKey email) existing, true⟩) ∧
    (cacheLookup ⟨true, true⟩ c (userKey email) = none →
      db.findByEmail email = none →
        createUser db c ⟨true, true⟩ email password =
          ⟨201, Json.obj [("id", Json.num (db.create email password).1.id),
                          ("email", Json.str (db.create email password).1.email),
                          ("createdAt", Json.str (db.create email password).1.createdAt)],
            (db.create email password).2,
            alistPut c (userKey email) (db.create email password).1, true⟩) := by
  refine ⟨?_, ?_, ?_⟩
  · intro u hu
    simp [createUser, hv, hu]
  · intro hc existing hdb
    simp [createUser, hv, hc, hdb]
  · intro hc hdb
    simp [createUser, hv, hc, hdb]

/-- Witness for `createUser_duplicate_flow`: creating `a@x.com` in an empty
store with an empty cache succeeds with 201 and the created record. -/
theorem createUser_duplicate_flow_witness :
    createUser (seqDb 0) [] ⟨true, true⟩ "a@x.com" "Password123!" =
      ⟨201, Json.obj [("id", Json.num ((seqDb 0).create "a@x.com" "Password123!").1.id),
                      ("email", Json.str ((seqDb 0).create "a@x.com" "Password123!").1.email),
                      ("createdAt",
                        Json.str ((seqDb 0).create "a@x.com" "Password123!").1.createdAt)],
        ((seqDb 0).create "a@x.com" "Password123!").2,
        alistPut [] (userKey "a@x.com") ((seqDb 0).create "a@x.com" "Password123!").1, true⟩ :=
  (createUser_duplicate_flow (seqDb 0) [] "a@x.com" "Password123!" (by decide)).2.2 rfl rfl

/-- Counterexample to claim C4: when the record store insert succeeds but
the following `hSet` fails, `POST /users` answers 500 instead of the 201
it would produce had the cache write been a no-op — yet the record was
inserted into the store either way. -/
theorem cache_write_failure_not_transparent :
    (createUser (seqDb 0) [] ⟨true, false⟩ "a@x.com" "Password123!").status = 500 ∧
    (createUser (seqDb 0) [] ⟨true, true⟩ "a@x.com" "Password123!").status = 201 ∧
    (createUser (seqDb 0) [] ⟨true, false⟩ "a@x.com" "Password123!").db =
      (createUser (seqDb 0) [] ⟨true, true⟩ "a@x.com" "Password123!").db := by
  refine ⟨by decide, by decide, by decide⟩

/-- Claim C4 as amended: a failed cache READ is treated as a miss — the
response (status, body and resulting store) is the one the request would
produce with no cache entry under its key — but a failed cache WRITE
(`hSet`/`expire` re-throw) aborts the request with 500: in particular a
valid `create` that misses the cache answers 500 whenever the cache write
fails, even though the store may have been written. -/
theorem cache_failure_semantics (db : Db) (c : Cache) (w : Bool) (email password : String) :
    respOf (createUser db c ⟨false, w⟩ email password) =
      respOf (createUser db (alistDrop c (userKey email)) ⟨true, w⟩ email password) ∧
    respOf (checkEmail db c ⟨false, w⟩ email) =
      respOf (checkEmail db (alistDrop c (userKey email)) ⟨true, w⟩ email) ∧
    respOf (getByEmail db c ⟨false, w⟩ email) =
      respOf (getByEmail db (alistDrop c (userKey email)) ⟨true, w⟩ email) ∧
    (∀ ro : Bool, zodIssues email password = [] →
      cacheLookup ⟨ro, false⟩ c (userKey email) = none →
      (createUser db c ⟨ro, false⟩ email password).status = 500) := by
  have hread : ∀ k, cacheLookup ⟨false, w⟩ c k = none := fun _ => rfl
  have hdrop : cacheLookup ⟨true, w⟩ (alistDrop c (userKey email)) (userKey email) = none := by
    simp [cacheLookup, alistFind_alistDrop]
  refine ⟨?_, ?_, ?_, ?_⟩
  · by_cases hz : zodIssues email password = []
    · simp only [createUser, hz, if_true, hread, hdrop]
      cases db.findByEmail email <;> cases w <;> rfl
    · simp only [createUser, hz, if_false]
      rfl
  · by_cases hz : zodEmailIssues email = []
    · simp only [checkEmail, hz, if_true, hread, hdrop]
      cases db.findByEmail email <;> cases w <;> rfl
    · simp only [checkEmail, hz, if_false]
      rfl
  · simp only [getByEmail, hread, hdrop]
    cases db.findByEmail email <;> cases w <;> rfl
  · intro ro hv hmiss
    simp only [createUser, hv, if_true, hmiss]
    cases db.findByEmail email <;> rfl

/-- Witness for `cache_failure_semantics`: the write-failure clause at a
concrete store and empty cache, and the read-failure clause at the same
inputs. -/
theorem cache_failure_semantics_witness :
    respOf (createUser (seqDb 1) [] ⟨false, true⟩ "a@x.com" "Password123!") =
      respOf (createUser (seqDb 1) (alistDrop [] (userKey "a@x.com")) ⟨true, true⟩
        "a@x.com" "Password123!") ∧
    (createUser (seqDb 1) [] ⟨true, false⟩ "a@x.com" "Password123!").status = 500 :=
  ⟨(cache_failure_semantics (seqDb 1) [] true "a@x.com" "Password123!").1,
   (cache_failure_semantics (seqDb 1) [] false "a@x.com" "Password123!").2.2.2
     true (by decide) rfl⟩

/-- Claim C5: a login for a non-existent email (by-email lookup answers
404) and a login for an existing email (lookup answers 200) with a
password that fails verification produce responses with the identical
status 401 and the identical error body
`{error: 'Invalid email or password'}`. -/
theorem login_indistinguishable (k : Crypto) (db : Db) (c : Cache) (b : CacheBehavior)
    (email1 pw1 email2 pw2 : String)
    (hv1 : zodIssues email1 pw1 = []) (hv2 : zodIssues email2 pw2 = [])
    (h1 : (getByEmail db c b email1).status = 404)
    (h2 : (getByEmail db c b email2).status = 200)
    (hpw : k.verify pw2 (jsonStrField (getByEmail db c b email2).body "password") = false) :
    (login k db c b email1 pw1).status = 401 ∧
    (login k db c b email2 pw2).status = 401 ∧
    (login k db c b email1 pw1).body = (login k db c b email2 pw2).body ∧
    (login k db c b email1 pw1).body =
      Json.obj [("error", Json.str "Invalid email or password")] := by
  have L1 : login k db c b email1 pw1 =
      ⟨401, Json.obj [("error", Json.str "Invalid email or password")],
        (getByEmail db c b email1).db, (getByEmail db c b email1).cache,
        (getByEmail db c b email1).dbTouched⟩ := by
    simp [login, hv1, h1]
  have L2 : login k db c b email2 pw2 =
      ⟨401, Json.obj [("error", Json.str "Invalid email or password")],
        (getByEmail db c b email2).db, (getByEmail db c b email2).cache,
        (getByEmail db c b email2).dbTouched⟩ := by
    simp [login, hv2, h2, hpw]
  rw [L1, L2]
  exact ⟨rfl, rfl, rfl, rfl⟩

/-- Witness for `login_indistinguishable`: with two seeded records, logging
in as the unknown `zz@x.com` and as `u1@x.com` with a wrong password both
answer 401 with the same error body. -/
theorem login_indistinguishable_witness :
    (login k0 (seqDb 2) [] ⟨true, true⟩ "zz@x.com" "Password123!").status = 401 ∧
    (login k0 (seqDb 2) [] ⟨true, true⟩ "u1@x.com" "WrongPass1!").status = 401 ∧
    (login k0 (seqDb 2) [] ⟨true, true⟩ "zz@x.com" "Password123!").body =
      (login k0 (seqDb 2) [] ⟨true, true⟩ "u1@x.com" "WrongPass1!").body ∧
    (login k0 (seqDb 2) [] ⟨true, true⟩ "zz@x.com" "Password123!").body =
      Json.obj [("error", Json.str "Invalid email or password")] :=
  login_indistinguishable k0 (seqDb 2) [] ⟨true, true⟩ "zz@x.com" "Password123!"
    "u1@x.com" "WrongPass1!" (by decide) (by decide) (by decide) (by decide) (by decide)

/-- Claim C6: when `create` succeeds (valid input, cache miss, email free
in the store, cache write succeeding), an immediately following
`findByEmail` of the same email answers 200 with the same id and email as
the created record — both when the second call is served from the cache
(`readOk`) and when its cache read fails and it is served from the store
(`writeOk`). -/
theorem create_then_findByEmail (db : Db) (c : Cache) (b2 : CacheBehavior)
    (email password : String)
    (hv : zodIssues email password = [])
    (hc : cacheLookup ⟨true, true⟩ c (userKey email) = none)
    (hdb : db.findByEmail email = none)
    (hb2 : b2.readOk = true ∨ b2.writeOk = true) :
    (createUser db c ⟨true, true⟩ email password).status = 201 ∧
    (getByEmail (createUser db c ⟨true, true⟩ email password).db
        (createUser db c ⟨true, true⟩ email password).cache b2 email).status = 200 ∧
    jsonField
        (getByEmail (createUser db c ⟨true, true⟩ email password).db
          (createUser db c ⟨true, true⟩ email password).cache b2 email).body "id" =
      jsonField (createUser db c ⟨true, true⟩ email password).body "id" ∧
    jsonField
        (getByEmail (createUser db c ⟨true, true⟩ email password).db
          (createUser db c ⟨true, true⟩ email password).cache b2 email).body "email" =
      jsonField (createUser db c ⟨true, true⟩ email password).body "email" := by
  have hne : email ≠ "" := emailOk_ne_empty email (zodIssues_email email password hv)
  have hcr : createUser db c ⟨true, true⟩ email password =
      ⟨201, Json.obj [("id", Json.num (db.create email password).1.id),
                      ("email", Json.str (db.create email password).1.email),
                      ("createdAt", Json.str (db.create email password).1.createdAt)],
        (db.create email password).2,
        alistPut c (userKey email) (db.create email password).1, true⟩ := by
    simp [createUser, hv, hc, hdb]
  rw [hcr]
  have hue : (db.create email password).1.email = email := rfl
  obtain ⟨ro, wo⟩ := b2
  cases ro with
  | true =>
      have hl : cacheLookup ⟨true, wo⟩
          (alistPut c (userKey email) (db.create email password).1) (userKey email) =
          some (db.create email password).1 := by
        simp [cacheLookup, alistFind_alistPut, hue, hne]
      have hget : getByEmail (db.create email password).2
          (alistPut c (userKey email) (db.create email password).1) ⟨true, wo⟩ email =
          ⟨200, fullJson (db.create email password).1, (db.create email password).2,
            alistPut c (userKey email) (db.create email password).1, false⟩ := by
        simp only [getByEmail, hl]
      rw [hget]
      refine ⟨rfl, rfl, ?_, ?_⟩ <;> simp [jsonField, fullJson]
  | false =>
      have hwo : wo = true := by
        cases hb2 with
        | inl h => exact absurd h (by simp)
        | inr h => exact h
      subst hwo
      have hf : (db.create email password).2.findByEmail email =
          some (db.create email password).1 := findByEmail_create db email password hdb
      have hl : cacheLookup ⟨false, true⟩
          (alistPut c (userKey email) (db.create email password).1) (userKey email) =
          none := rfl
      have hget : getByEmail (db.create email password).2
          (alistPut c (userKey email) (db.create email password).1) ⟨false, true⟩ email =
          ⟨200, fullJson (db.create email password).1, (db.create email password).2,
            alistPut (alistPut c (userKey email) (db.create email password).1)
              (userKey email) (db.create email password).1, true⟩ := by
        simp only [getByEmail, hl, hf]
        rfl
      rw [hget]
      refine ⟨rfl, rfl, ?_, ?_⟩ <;> simp [jsonField, fullJson]

/-- Witness for `create_then_findByEmail`: creating `a@x.com` in a seeded
store and immediately looking it up (cache-served) round-trips id and
email. -/
theorem create_then_findByEmail_witness :
    (createUser (seqDb 1) [] ⟨true, true⟩ "a@x.com" "Password123!").status = 201 ∧
    (getByEmail (createUser (seqDb 1) [] ⟨true, true⟩ "a@x.com" "Password123!").db
        (createUser (seqDb 1) [] ⟨true, true⟩ "a@x.com" "Password123!").cache
        ⟨true, true⟩ "a@x.com").status = 200 ∧
    jsonField
        (getByEmail (createUser (seqDb 1) [] ⟨true, true⟩ "a@x.com" "Password123!").db
          (createUser (seqDb 1) [] ⟨true, true⟩ "a@x.com" "Password123!").cache
          ⟨true, true⟩ "a@x.com").body "id" =
      jsonField (createUser (seqDb 1) [] ⟨true, true⟩ "a@x.com" "Password123!").body "id" ∧
    jsonField
        (getByEmail (createUser (seqDb 1) [] ⟨true, true⟩ "a@x.com" "Password123!").db
          (createUser (seqDb 1) [] ⟨true, true⟩ "a@x.com" "Password123!").cache
          ⟨true, true⟩ "a@x.com").body "email" =
      jsonField (createUser (seqDb 1) [] ⟨true, true⟩ "a@x.com" "Password123!").body "email" :=
  create_then_findByEmail (seqDb 1) [] ⟨true, true⟩ "a@x.com" "Password123!"
    (by decide) rfl (by decide) (Or.inl rfl)

/-- Counterexample to claim C7: `getUsers` is NOT cache-free — with an
entry under the request's page key it returns the cached response (here a
bogus one) instead of the store scan, so its result depends on the cache;
and on a miss it writes the computed page into the cache. -/
theorem getUsers_depends_on_page_cache :
    (getUsers (seqDb 1) [("users:10:0", PageResp.mk [] (some 99))] 10 none).1 =
      PageResp.mk [] (some 99) ∧
    (getUsers (seqDb 1) [("users:10:0", PageResp.mk [] (some 99))] 10 none).1 ≠
      (getUsers (seqDb 1) [] 10 none).1 ∧
    (getUsers (seqDb 1) [] 10 none).2.1 ≠ ([] : PageCache) := by
  refine ⟨by decide, by decide, by decide⟩

/-- Claim C7 as amended: `getUsers` consults a per-page Redis cache keyed
by `users:<take>:<cursor || 0>`: on a hit it returns the cached response
without touching the store or the cache; on a miss it scans the store,
answers with the computed page and writes that response into the cache. -/
theorem getUsers_page_cache_behavior (db : Db) (pc : PageCache)
    (t : Nat) (cur : Option Nat) :
    (∀ resp, alistFind pc (pageKey (effTake t) (effCursor cur)) = some resp →
        getUsers db pc t cur = (resp, pc, false)) ∧
    (alistFind pc (pageKey (effTake t) (effCursor cur)) = none →
        (getUsers db pc t cur).2.1 =
          alistPut pc (pageKey (effTake t) (effCursor cur)) (getUsers db pc t cur).1 ∧
        (getUsers db pc t cur).2.2 = true) := by
  constructor
  · intro resp h
    simp [getUsers, h]
  · intro h
    simp [getUsers, h]

/-- Witness for `getUsers_page_cache_behavior`: a concrete cache hit is
returned as-is with the cache untouched and the store unqueried. -/
theorem getUsers_page_cache_behavior_witness :
    getUsers (seqDb 1) [("users:10:0", PageResp.mk [] (some 99))] 10 none =
      (PageResp.mk [] (some 99), [("users:10:0", PageResp.mk [] (some 99))], false) :=
  (getUsers_page_cache_behavior (seqDb 1) [("users:10:0", PageResp.mk [] (some 99))]
    10 none).1 (PageResp.mk [] (some 99)) rfl

/-- Counterexample to claim C8: the 201 register body does not contain
exactly a token and the user projection — it also carries a fixed
`message` field, so its key set is `["message", "token", "user"]`,
not `["token", "user"]`. -/
theorem register_body_has_message_field :
    (register k0 (seqDb 0) [] ⟨true, true⟩ "a@x.com" "Password123!").status = 201 ∧
    jsonStrField (register k0 (seqDb 0) [] ⟨true, true⟩ "a@x.com" "Password123!").body
      "message" = "User registered successfully" ∧
    jsonKeys (register k0 (seqDb 0) [] ⟨true, true⟩ "a@x.com" "Password123!").body ≠
      ["token", "user"] := by
  refine ⟨by decide, by decide, by decide⟩

/-- Claim C8 as amended: a successful register answers 201 with a body of
exactly the fields `message`, `token` and `user` (the public projection
`{id, email}`), and the only strings occurring anywhere in the body are
the fixed message, the token and the email — in particular neither the
password nor its hash is placed in any field. -/
theorem register_success_body (k : Crypto) (db : Db) (c : Cache) (b : CacheBehavior)
    (email password : String)
    (hv : zodIssues email password = [])
    (hvh : zodIssues email (k.hashFn password) = [])
    (hc : cacheLookup b c (userKey email) = none)
    (hdb : db.findByEmail email = none)
    (hw : b.writeOk = true) :
    register k db c b email password =
      ⟨201, Json.obj [("message", Json.str "User registered successfully"),
                      ("token", Json.str
                        (k.sign ((db.create email (k.hashFn password)).1.id : Int) email)),
                      ("user", Json.obj
                        [("id", Json.num ((db.create email (k.hashFn password)).1.id : Int)),
                         ("email", Json.str email)])],
        (db.create email (k.hashFn password)).2,
        alistPut c (userKey email) (db.create email (k.hashFn password)).1, true⟩ ∧
    jsonKeys (register k db c b email password).body = ["message", "token", "user"] ∧
    jsonStrings (register k db c b email password).body =
      ["User registered successfully",
        k.sign ((db.create email (k.hashFn password)).1.id : Int) email, email] := by
  have hcr : createUser db c b email (k.hashFn password) =
      ⟨201, Json.obj [("id", Json.num ((db.create email (k.hashFn password)).1.id : Int)),
                      ("email", Json.str (db.create email (k.hashFn password)).1.email),
                      ("createdAt",
                        Json.str (db.create email (k.hashFn password)).1.createdAt)],
        (db.create email (k.hashFn password)).2,
        alistPut c (userKey email) (db.create email (k.hashFn password)).1, true⟩ := by
    simp [createUser, hvh, hc, hdb, hw]
  have hue : (db.create email (k.hashFn password)).1.email = email := rfl
  have hreg : register k db c b email password =
      ⟨201, Json.obj [("message", Json.str "User registered successfully"),
                      ("token", Json.str
                        (k.sign ((db.create email (k.hashFn password)).1.id : Int) email)),
                      ("user", Json.obj
                        [("id", Json.num ((db.create email (k.hashFn password)).1.id : Int)),
                         ("email", Json.str email)])],
        (db.create email (k.hashFn password)).2,
        alistPut c (userKey email) (db.create email (k.hashFn password)).1, true⟩ := by
    simp only [register, hv, if_true, hcr]
    simp [jsonNumField, jsonStrField, jsonField, hue]
  refine ⟨hreg, ?_, ?_⟩
  · rw [hreg]
    rfl
  · rw [hreg]
    rfl

/-- Witness for `register_success_body`: registering `a@x.com` against an
empty store with an empty cache. -/
theorem register_success_body_witness :
    register k0 (seqDb 0) [] ⟨true, true⟩ "a@x.com" "Password123!" =
      ⟨201, Json.obj [("message", Json.str "User registered successfully"),
                      ("token", Json.str
                        (k0.sign (((seqDb 0).create "a@x.com"
                          (k0.hashFn "Password123!")).1.id : Int) "a@x.com")),
                      ("user", Json.obj
                        [("id", Json.num (((seqDb 0).create "a@x.com"
                            (k0.hashFn "Password123!")).1.id : Int)),
                         ("email", Json.str "a@x.com")])],
        ((seqDb 0).create "a@x.com" (k0.hashFn "Password123!")).2,
        alistPut [] (userKey "a@x.com")
          ((seqDb 0).create "a@x.com" (k0.hashFn "Password123!")).1, true⟩ ∧
    jsonKeys (register k0 (seqDb 0) [] ⟨true, true⟩ "a@x.com" "Password123!").body =
      ["message", "token", "user"] ∧
    jsonStrings (register k0 (seqDb 0) [] ⟨true, true⟩ "a@x.com" "Password123!").body =
      ["User registered successfully",
        k0.sign (((seqDb 0).create "a@x.com" (k0.hashFn "Password123!")).1.id : Int)
          "a@x.com", "a@x.com"] :=
  register_success_body k0 (seqDb 0) [] ⟨true, true⟩ "a@x.com" "Password123!"
    (by decide) (by decide) rfl rfl rfl

/-- Claim C9: a request that fails validation is answered 400 by register,
login and create alike, with a body `{error: s}` whose `s` is the single
string joining all collected issue messages with a comma — a `Json.str`,
never a `Json.arr`. -/
theorem validation_errors_joined (k : Crypto) (db : Db) (c : Cache) (b : CacheBehavior)
    (email password : String) (hv : zodIssues email password ≠ []) :
    register k db c b email password =
      ⟨400, Json.obj [("error",
          Json.str (String.intercalate ", " (zodIssues email password)))], db, c, false⟩ ∧
    login k db c b email password =
      ⟨400, Json.obj [("error",
          Json.str (String.intercalate ", " (zodIssues email password)))], db, c, false⟩ ∧
    createUser db c b email password =
      ⟨400, Json.obj [("error",
          Json.str (String.intercalate ", " (zodIssues email password)))], db, c, false⟩ := by
  refine ⟨?_, ?_, ?_⟩ <;> simp [register, login, createUser, errBody, hv]

/-- Witness for `validation_errors_joined`: a malformed email together with
a too-short password yields the two issue messages joined into one
string. -/
theorem validation_errors_joined_witness :
    register k0 (seqDb 0) [] ⟨true, true⟩ "bad" "short" =
      ⟨400, Json.obj [("error",
          Json.str (String.intercalate ", " (zodIssues "bad" "short")))],
        seqDb 0, [], false⟩ ∧
    login k0 (seqDb 0) [] ⟨true, true⟩ "bad" "short" =
      ⟨400, Json.obj [("error",
          Json.str (String.intercalate ", " (zodIssues "bad" "short")))],
        seqDb 0, [], false⟩ ∧
    createUser (seqDb 0) [] ⟨true, true⟩ "bad" "short" =
      ⟨400, Json.obj [("error",
          Json.str (String.intercalate ", " (zodIssues "bad" "short")))],
        seqDb 0, [], false⟩ :=
  validation_errors_joined k0 (seqDb 0) [] ⟨true, true⟩ "bad" "short" (by decide)

/-- Claim C10: `GET /users/by-email/:email` answers 200 with the full
record — the stored password hash included as the `password` field — both
from the cache and from the store, and a cache hit on
`GET /users/check-email` returns the entire cached hash (password
included) as the `user` field. -/
theorem lookups_expose_password_hash (db : Db) (c : Cache) (b : CacheBehavior)
    (email : String) (u : User) :
    (cacheLookup b c (userKey email) = some u →
      getByEmail db c b email = ⟨200, fullJson u, db, c, false⟩ ∧
      jsonStrField (fullJson u) "password" = u.password) ∧
    (cacheLookup b c (userKey email) = none → db.findByEmail email = some u →
      b.writeOk = true →
      getByEmail db c b email =
        ⟨200, fullJson u, db, alistPut c (userKey email) u, true⟩ ∧
      jsonStrField (fullJson u) "password" = u.password) ∧
    (zodEmailIssues email = [] → cacheLookup b c (userKey email) = some u →
      checkEmail db c b email =
        ⟨200, Json.obj [("exists", Json.bool true), ("user", hashJson u)], db, c, false⟩ ∧
      jsonStrField (hashJson u) "password" = u.password) := by
  refine ⟨?_, ?_, ?_⟩
  · intro h
    constructor
    · simp [getByEmail, h]
    · simp [jsonStrField, jsonField, fullJson]
  · intro h hdb hw
    constructor
    · simp [getByEmail, h, hdb, hw]
    · simp [jsonStrField, jsonField, fullJson]
  · intro hz h
    constructor
    · simp [checkEmail, hz, h]
    · simp [jsonStrField, jsonField, hashJson]

/-- Witness for `lookups_expose_password_hash`: a cached record's password
hash is served verbatim by the by-email endpoint. -/
theorem lookups_expose_password_hash_witness :
    getByEmail (seqDb 0) [(userKey "u1@x.com", ⟨1, "u1@x.com", "h1", "t1"⟩)]
        ⟨true, true⟩ "u1@x.com" =
      ⟨200, fullJson ⟨1, "u1@x.com", "h1", "t1"⟩, seqDb 0,
        [(userKey "u1@x.com", ⟨1, "u1@x.com", "h1", "t1"⟩)], false⟩ ∧
    jsonStrField (fullJson ⟨1, "u1@x.com", "h1", "t1"⟩) "password" = "h1" :=
  (lookups_expose_password_hash (seqDb 0)
    [(userKey "u1@x.com", ⟨1, "u1@x.com", "h1", "t1"⟩)] ⟨true, true⟩ "u1@x.com"
    ⟨1, "u1@x.com", "h1", "t1"⟩).1 (by decide)

end LoginRegister
